import Mathlib

/-!
Verification of the asynchronous Iconify catalog browser
(`src/views/iconify_search_popup.rs` together with the relevant parts of
`src/app_state.rs`).

The Rust code is shallowly embedded: pure functions become Lean functions,
the popup / application state becomes a Lean structure, key handling and
completion handling become state-transition functions.  `Instant::now()` is
modelled by an explicit `now : Nat` parameter (milliseconds), `tokio::spawn`
of a background fetch is modelled by appending a `Dispatch` record to an
explicit dispatch log, and the `u64` request counter is modelled as a `Nat`
with explicit saturation at `2 ^ 64 - 1` (Rust `saturating_add`).

The text-editing widget (`tui_textarea`, an external crate) is modelled by
the string it produces: a non-navigation key event carries the new joined
text of the text area.  Field and function names follow the Rust source;
the source field spelled like the collection namespace keyword is rendered
as `pfx` here because that spelling is not available as a Lean identifier.
-/

/-- Rust `char::is_whitespace`: the Unicode `White_Space` property. -/
def rustIsWhitespace (c : Char) : Bool :=
  (0x9 ≤ c.toNat && c.toNat ≤ 0xD) || c.toNat == 0x20 || c.toNat == 0x85 ||
    c.toNat == 0xA0 || c.toNat == 0x1680 ||
    (0x2000 ≤ c.toNat && c.toNat ≤ 0x200A) || c.toNat == 0x2028 ||
    c.toNat == 0x2029 || c.toNat == 0x202F || c.toNat == 0x205F ||
    c.toNat == 0x3000

/-- Rust `str::trim` on the underlying character list. -/
def rustTrimList (cs : List Char) : List Char :=
  ((cs.dropWhile rustIsWhitespace).reverse.dropWhile rustIsWhitespace).reverse

/-- Rust `str::trim`. -/
def rustTrim (s : String) : String :=
  String.mk (rustTrimList s.data)

/-- `FuzzyCandidate` from `iconify_search_popup.rs`: an original position
together with the text that is matched against the query. -/
structure FuzzyCandidate where
  index : Nat
  haystack : String
deriving Repr, DecidableEq

/-- Subsequence test on character lists: every character of the first list
occurs, in order but not necessarily contiguously, in the second. -/
def isSubseqOf : List Char → List Char → Bool
  | [], _ => true
  | _ :: _, [] => false
  | a :: as, b :: bs => if a = b then isSubseqOf as bs else isSubseqOf (a :: as) bs

/-- Modelled from the spec: the score produced by the `nucleo_matcher`
crate's `Pattern::match_list` (an external dependency whose source is not
part of this repository).  Per the spec (§4.4) it is a case-insensitive
subsequence/affinity match: a candidate matches exactly when the query's
characters occur in order in the haystack (non-contiguous allowed), earlier
matches score higher, and a candidate with no match is excluded (`none`). -/
def fuzzy_score (query haystack : String) : Option Nat :=
  let q := query.data.map Char.toLower
  let h := haystack.data.map Char.toLower
  if isSubseqOf q h then
    some (h.length + 1 - List.findIdx (fun c => q.head? = some c) h)
  else none

/-- The comparator used by `fuzzy_rank_indices`'s `sort_by`: descending
score, ties broken by ascending original candidate index. -/
def rank_rel (a b : FuzzyCandidate × Nat) : Prop :=
  b.2 < a.2 ∨ (a.2 = b.2 ∧ a.1.index ≤ b.1.index)

instance : DecidableRel rank_rel := fun a b => by
  unfold rank_rel; exact inferInstance

instance : IsTotal (FuzzyCandidate × Nat) rank_rel where
  total a b := by
    unfold rank_rel
    rcases Nat.lt_trichotomy a.2 b.2 with h | h | h
    · exact Or.inr (Or.inl h)
    · rcases Nat.le_total a.1.index b.1.index with hi | hi
      · exact Or.inl (Or.inr ⟨h, hi⟩)
      · exact Or.inr (Or.inr ⟨h.symm, hi⟩)
    · exact Or.inl (Or.inl h)

instance : IsTrans (FuzzyCandidate × Nat) rank_rel where
  trans a b c hab hbc := by
    unfold rank_rel at *
    rcases hab with hab | ⟨hab, hab'⟩ <;> rcases hbc with hbc | ⟨hbc, hbc'⟩
    · exact Or.inl (Nat.lt_trans hbc hab)
    · exact Or.inl (hbc ▸ hab)
    · exact Or.inl (hab ▸ hbc)
    · exact Or.inr ⟨hab.trans hbc, Nat.le_trans hab' hbc'⟩

/-- The matched sublist produced by `pattern.match_list` inside
`fuzzy_rank_indices`: candidates whose score is a match, paired with their
scores, in original order. -/
def fuzzy_matched (query : String) (candidates : List FuzzyCandidate) :
    List (FuzzyCandidate × Nat) :=
  candidates.filterMap fun c => (fuzzy_score query c.haystack).map fun s => (c, s)

/-- The matched list after `matched.sort_by(...)` in `fuzzy_rank_indices`. -/
def fuzzy_rank_pairs (query : String) (candidates : List FuzzyCandidate) :
    List (FuzzyCandidate × Nat) :=
  List.insertionSort rank_rel (fuzzy_matched query candidates)

/-- `fuzzy_rank_indices` from `iconify_search_popup.rs`. -/
def fuzzy_rank_indices (query : String) (candidates : List FuzzyCandidate) :
    List Nat :=
  if (rustTrim query).isEmpty then
    candidates.map FuzzyCandidate.index
  else
    (fuzzy_rank_pairs query candidates).map fun p => p.1.index

/-- `IconifyCollectionListItem` from `app_state.rs`; the namespace field is
called `pfx` here. -/
structure IconifyCollectionListItem where
  pfx : String
  name : String
  total : Option Nat
deriving Repr, DecidableEq

/-- `IconifySearchPayload` from `app_state.rs`. -/
structure IconifySearchPayload where
  icons : List String
deriving Repr, DecidableEq

/-- `fuzzy_filter_collections` from `iconify_search_popup.rs`. -/
def fuzzy_filter_collections (collections : List IconifyCollectionListItem)
    (query : String) : List IconifyCollectionListItem :=
  let candidates := collections.enum.map fun p =>
    FuzzyCandidate.mk p.1 (p.2.pfx ++ " " ++ p.2.name)
  (fuzzy_rank_indices query candidates).map fun i =>
    collections.getD i (IconifyCollectionListItem.mk "" "" none)

/-- `fuzzy_filter_icons` from `iconify_search_popup.rs`. -/
def fuzzy_filter_icons (icons : List String) (query : String) : List String :=
  let candidates := icons.enum.map fun p => FuzzyCandidate.mk p.1 p.2
  (fuzzy_rank_indices query candidates).map fun i => icons.getD i ""

/-- `IconifySearchTab` from `iconify_search_popup.rs`. -/
inductive IconifySearchTab where
  | collections
  | icons
deriving Repr, DecidableEq

/-- `SEARCH_DEBOUNCE_MS` from `iconify_search_popup.rs`. -/
def SEARCH_DEBOUNCE_MS : Nat := 280

/-- `IconifySearchPopupState` from `iconify_search_popup.rs`.  The
`search_textarea` widget (external crate) is represented by the joined text
it yields, which the source mirrors into `search_value`; `Instant` is a
`Nat`. -/
structure IconifySearchPopupState where
  search_value : String
  active_tab : IconifySearchTab
  selected_collection_index : Nat
  selected_icon_index : Nat
  all_collections : List IconifyCollectionListItem
  filtered_collections : List IconifyCollectionListItem
  search_icons : List String
  collection_icons : List String
  collection_icons_pfx : Option String
  visible_icons : List String
  selected_collection_filter : Option String
  pending_search_query : Option String
  debounce_deadline : Option Nat
  latest_collections_request_id : Nat
  latest_search_request_id : Nat
  latest_collection_icons_request_id : Nat
  is_loading_collections : Bool
  is_loading_search : Bool
  is_loading_collection_icons : Bool
  status_message : Option String
  status_is_error : Bool
deriving Repr, DecidableEq

/-- `IconifySearchPopupState::new`. -/
def IconifySearchPopupState.new : IconifySearchPopupState where
  search_value := ""
  active_tab := IconifySearchTab.collections
  selected_collection_index := 0
  selected_icon_index := 0
  all_collections := []
  filtered_collections := []
  search_icons := []
  collection_icons := []
  collection_icons_pfx := none
  visible_icons := []
  selected_collection_filter := none
  pending_search_query := none
  debounce_deadline := none
  latest_collections_request_id := 0
  latest_search_request_id := 0
  latest_collection_icons_request_id := 0
  is_loading_collections := false
  is_loading_search := false
  is_loading_collection_icons := false
  status_message := none
  status_is_error := false

/-- `IconifySearchPopupState::active_collections`. -/
def IconifySearchPopupState.active_collections (s : IconifySearchPopupState) :
    List IconifyCollectionListItem :=
  if (rustTrim s.search_value).isEmpty then s.all_collections
  else s.filtered_collections

/-- `IconifySearchPopupState::refresh_filtered_collections`. -/
def IconifySearchPopupState.refresh_filtered_collections
    (s : IconifySearchPopupState) : IconifySearchPopupState :=
  let query := rustTrim s.search_value
  if query.isEmpty then { s with filtered_collections := [] }
  else { s with filtered_collections := fuzzy_filter_collections s.all_collections query }

/-- `IconifySearchPopupState::sync_search_dispatch_state`; `now` models
`Instant::now()`. -/
def IconifySearchPopupState.sync_search_dispatch_state (now : Nat)
    (s : IconifySearchPopupState) : IconifySearchPopupState :=
  let s := { s with pending_search_query := none, debounce_deadline := none }
  let query := rustTrim s.search_value
  if query.isEmpty ∨ s.active_tab ≠ IconifySearchTab.icons ∨
      s.selected_collection_filter ≠ none then
    { s with is_loading_search := false }
  else
    { s with pending_search_query := some query,
             debounce_deadline := some (now + SEARCH_DEBOUNCE_MS),
             is_loading_search := true }

/-- `IconifySearchPopupState::set_status`. -/
def IconifySearchPopupState.set_status (message : String) (is_error : Bool)
    (s : IconifySearchPopupState) : IconifySearchPopupState :=
  { s with status_message := some message, status_is_error := is_error }

/-- `IconifySearchPopupState::clear_status`. -/
def IconifySearchPopupState.clear_status (s : IconifySearchPopupState) :
    IconifySearchPopupState :=
  { s with status_message := none, status_is_error := false }

/-- `IconifySearchPopupState::clear_search_input`. -/
def IconifySearchPopupState.clear_search_input (now : Nat)
    (s : IconifySearchPopupState) : IconifySearchPopupState :=
  let s := { s with search_value := "", filtered_collections := [],
                    search_icons := [], selected_icon_index := 0 }
  (s.sync_search_dispatch_state now).clear_status

/-- `IconifySearchPopupState::selected_collection_prefix` (renamed). -/
def IconifySearchPopupState.selected_collection_pfx
    (s : IconifySearchPopupState) : Option String :=
  (s.active_collections.get? s.selected_collection_index).map
    IconifyCollectionListItem.pfx

/-- `IconifySearchPopupState::selected_icon_name`. -/
def IconifySearchPopupState.selected_icon_name (s : IconifySearchPopupState) :
    Option String :=
  s.visible_icons.get? s.selected_icon_index

/-- `IconifySearchPopupState::clamp_collection_selection`. -/
def IconifySearchPopupState.clamp_collection_selection
    (s : IconifySearchPopupState) : IconifySearchPopupState :=
  let len := s.active_collections.length
  if len = 0 then { s with selected_collection_index := 0 }
  else if s.selected_collection_index ≥ len then
    { s with selected_collection_index := len - 1 }
  else s

/-- `IconifySearchPopupState::clamp_icon_selection`. -/
def IconifySearchPopupState.clamp_icon_selection (s : IconifySearchPopupState) :
    IconifySearchPopupState :=
  let len := s.visible_icons.length
  if len = 0 then { s with selected_icon_index := 0 }
  else if s.selected_icon_index ≥ len then
    { s with selected_icon_index := len - 1 }
  else s

/-- `IconifySearchPopupState::refresh_visible_icons`. -/
def IconifySearchPopupState.refresh_visible_icons (s : IconifySearchPopupState) :
    IconifySearchPopupState :=
  match s.selected_collection_filter with
  | some pfx =>
    if s.collection_icons_pfx ≠ some pfx then
      ({ s with visible_icons := [] }).clamp_icon_selection
    else
      let query := rustTrim s.search_value
      let s :=
        if query.isEmpty then { s with visible_icons := s.collection_icons }
        else { s with visible_icons := fuzzy_filter_icons s.collection_icons query }
      s.clamp_icon_selection
  | none => ({ s with visible_icons := s.search_icons }).clamp_icon_selection

/-- `IconifySearchPopupState::update_search_value`; `new_value` is the joined
text of the text area after the keystroke. -/
def IconifySearchPopupState.update_search_value (now : Nat) (new_value : String)
    (s : IconifySearchPopupState) : IconifySearchPopupState :=
  let s := { s with search_value := new_value, status_message := none,
                    status_is_error := false, selected_collection_index := 0,
                    selected_icon_index := 0 }
  let s := s.refresh_filtered_collections
  let s :=
    if (rustTrim s.search_value).isEmpty then
      { s with filtered_collections := [], search_icons := [] }
    else
      { s with search_icons := [] }
  (s.refresh_visible_icons).sync_search_dispatch_state now

/-- `IconifySearchPopupState::move_collection_selection`.  The source
computes the new index as `(index as i32 + delta).rem_euclid(len as i32) as
usize`; here that computation is idealized with unbounded integers, which
agrees with the source exactly while the list length and index stay below
`2 ^ 31` and the addition stays in `i32` range (see `move_index_i32` for
the exact `i32` model and `move_index_i32_eq_idealized` for the
agreement). -/
def IconifySearchPopupState.move_collection_selection (delta : Int)
    (s : IconifySearchPopupState) : IconifySearchPopupState :=
  let len := s.active_collections.length
  if len = 0 then { s with selected_collection_index := 0 }
  else
    { s with selected_collection_index :=
        (((s.selected_collection_index : Int) + delta) % (len : Int)).toNat }

/-- `IconifySearchPopupState::move_icon_selection`; same `i32` idealization
as `move_collection_selection`. -/
def IconifySearchPopupState.move_icon_selection (delta : Int)
    (s : IconifySearchPopupState) : IconifySearchPopupState :=
  let len := s.visible_icons.length
  if len = 0 then { s with selected_icon_index := 0 }
  else
    { s with selected_icon_index :=
        (((s.selected_icon_index : Int) + delta) % (len : Int)).toNat }

/-- Rust `usize as i32`: truncation to the low 32 bits, read as two's
complement. -/
def usize_as_i32 (n : Nat) : Int :=
  if n % 2 ^ 32 < 2 ^ 31 then ((n % 2 ^ 32 : Nat) : Int)
  else ((n % 2 ^ 32 : Nat) : Int) - 2 ^ 32

/-- Rust release-mode `i32` addition: the exact sum reduced into
`[-2 ^ 31, 2 ^ 31)`; a debug build panics at the same boundary. -/
def i32_wrapping_add (x y : Int) : Int :=
  (x + y + 2 ^ 31) % 2 ^ 32 - 2 ^ 31

/-- Rust `i32::rem_euclid`: the least non-negative residue; `none` models
the panic on a zero divisor and on `i32::MIN.rem_euclid(-1)` (overflow). -/
def i32_rem_euclid (x y : Int) : Option Int :=
  if y = 0 ∨ (x = -(2 ^ 31) ∧ y = -1) then none
  else some (x % |y|)

/-- The new selection index exactly as the source computes it in
`move_collection_selection` / `move_icon_selection` on a non-empty list:
`(index as i32 + delta).rem_euclid(len as i32) as usize`, with the
truncating `usize`-to-`i32` casts and the wrapping `i32` addition modelled
bit-precisely; `none` is the panicking execution (`len as i32 == 0`, i.e.
a list length divisible by `2 ^ 32`).  The state-level move functions above
idealize this computation with unbounded integers. -/
def move_index_i32 (index : Nat) (delta : Int) (len : Nat) : Option Nat :=
  (i32_rem_euclid (i32_wrapping_add (usize_as_i32 index) delta)
    (usize_as_i32 len)).map Int.toNat

/-- `AppFocus` from `app_state.rs`. -/
inductive AppFocus where
  | main
  | addPopup
  | deletePopup
  | renamePopup
  | helpPopup
  | iconifySearchPopup
deriving Repr, DecidableEq

/-- A background fetch spawned by the popup (the observable effect of the
`tokio::spawn` calls in `iconify_search_popup.rs`): its category, the
request id it carries, and its input. -/
inductive Dispatch where
  | collectionsFetch (request_id : Nat)
  | searchFetch (request_id : Nat) (query : String)
  | collectionIconsFetch (request_id : Nat) (pfx : String)
deriving Repr, DecidableEq

instance {e a : Type} [DecidableEq e] [DecidableEq a] : DecidableEq (Except e a) := fun x y =>
  match x, y with
  | Except.ok u, Except.ok v =>
    if h : u = v then isTrue (by rw [h]) else isFalse (by intro hh; cases hh; exact h rfl)
  | Except.ok _, Except.error _ => isFalse (by intro hh; cases hh)
  | Except.error _, Except.ok _ => isFalse (by intro hh; cases hh)
  | Except.error u, Except.error v =>
    if h : u = v then isTrue (by rw [h]) else isFalse (by intro hh; cases hh; exact h rfl)

/-- `AppEvent` from `app_state.rs` (the three Iconify completion events). -/
inductive AppEvent where
  | iconifyCollectionsLoaded (request_id : Nat)
      (result : Except String (List IconifyCollectionListItem))
  | iconifySearchLoaded (request_id : Nat) (query : String)
      (result : Except String IconifySearchPayload)
  | iconifyCollectionIconsLoaded (request_id : Nat) (pfx : String)
      (result : Except String (List String))
deriving Repr, DecidableEq

/-- The fields of `App` from `app_state.rs` relevant to the Iconify popup,
plus the log of spawned background fetches. -/
structure App where
  app_focus : AppFocus
  iconify_search_popup_state : Option IconifySearchPopupState
  next_async_request_id : Nat
  dispatched : List Dispatch
  staged_icon_source : Option String
deriving Repr, DecidableEq

/-- Rust `u64::saturating_add(1)` on a counter value below `2 ^ 64`. -/
def u64_saturating_add_one (c : Nat) : Nat :=
  min (c + 1) (2 ^ 64 - 1)

/-- The popup-relevant initialization in `App::new` (`app_state.rs`):
no popup open, `next_async_request_id: 0`. -/
def App.initial : App where
  app_focus := AppFocus.main
  iconify_search_popup_state := none
  next_async_request_id := 0
  dispatched := []
  staged_icon_source := none

/-- `App::next_request_id`: saturating increment, returns the new value. -/
def App.next_request_id (a : App) : Nat × App :=
  let v := u64_saturating_add_one a.next_async_request_id
  (v, { a with next_async_request_id := v })

/-- `App::request_iconify_collections`. -/
def App.request_iconify_collections (a : App) : App :=
  let p := a.next_request_id
  let request_id := p.1
  let a := p.2
  match a.iconify_search_popup_state with
  | none => a
  | some st =>
    { a with
      iconify_search_popup_state := some
        (({ st with latest_collections_request_id := request_id,
                    is_loading_collections := true }).set_status
          "Loading collections..." false),
      dispatched := a.dispatched ++ [Dispatch.collectionsFetch request_id] }

/-- `App::init_iconify_search_popup`. -/
def App.init_iconify_search_popup (a : App) : App :=
  ({ a with app_focus := AppFocus.iconifySearchPopup,
            iconify_search_popup_state := some IconifySearchPopupState.new
   }).request_iconify_collections

/-- `App::close_iconify_search_popup`. -/
def App.close_iconify_search_popup (a : App) : App :=
  { a with app_focus := AppFocus.main, iconify_search_popup_state := none }

/-- `App::dispatch_iconify_search`. -/
def App.dispatch_iconify_search (query : String) (a : App) : App :=
  let p := a.next_request_id
  let request_id := p.1
  let a := p.2
  match a.iconify_search_popup_state with
  | none => a
  | some st =>
    if st.active_tab ≠ IconifySearchTab.icons ∨
        st.selected_collection_filter ≠ none then
      { a with
        iconify_search_popup_state := some
          ({ st with pending_search_query := none, debounce_deadline := none,
                     is_loading_search := false }) }
    else
      { a with
        iconify_search_popup_state := some
          { st with pending_search_query := none, debounce_deadline := none,
                    latest_search_request_id := request_id,
                    is_loading_search := true },
        dispatched := a.dispatched ++ [Dispatch.searchFetch request_id query] }

/-- `App::open_collection_icons`. -/
def App.open_collection_icons (now : Nat) (pfx : String) (a : App) : App :=
  match a.iconify_search_popup_state with
  | none => a
  | some st =>
    let st := { st with active_tab := IconifySearchTab.icons,
                        selected_collection_filter := some pfx,
                        selected_icon_index := 0 }
    let st := st.refresh_visible_icons
    let st := st.sync_search_dispatch_state now
    let should_fetch := st.collection_icons_pfx ≠ some pfx
    let st :=
      if should_fetch then ({ st with collection_icons := [] }).refresh_visible_icons
      else st
    let a := { a with iconify_search_popup_state := some st }
    if should_fetch then
      let p := a.next_request_id
      let request_id := p.1
      let a := p.2
      match a.iconify_search_popup_state with
      | none => a
      | some st2 =>
        { a with
          iconify_search_popup_state := some
            (({ st2 with latest_collection_icons_request_id := request_id,
                         is_loading_collection_icons := true }).set_status
              ("Loading icons for collection '" ++ pfx ++ "'...") false),
          dispatched := a.dispatched ++ [Dispatch.collectionIconsFetch request_id pfx] }
    else a

/-- `App::tick_iconify_search_popup`; `now` models `Instant::now()` at the
frame. -/
def App.tick_iconify_search_popup (now : Nat) (a : App) : App :=
  let query_to_dispatch := a.iconify_search_popup_state.bind fun st =>
    if st.active_tab ≠ IconifySearchTab.icons ∨
        st.selected_collection_filter ≠ none then none
    else
      match st.debounce_deadline with
      | none => none
      | some deadline => if deadline ≤ now then st.pending_search_query else none
  match query_to_dispatch with
  | some query => a.dispatch_iconify_search query
  | none => a

/-- `App::handle_app_event`. -/
def App.handle_app_event (e : AppEvent) (a : App) : App :=
  match e with
  | AppEvent.iconifyCollectionsLoaded request_id result =>
    match a.iconify_search_popup_state with
    | none => a
    | some st =>
      if request_id ≠ st.latest_collections_request_id then a
      else
        let st := { st with is_loading_collections := false }
        match result with
        | Except.ok items =>
          let st := { st with all_collections := items }
          let st := st.refresh_filtered_collections
          let st := st.clamp_collection_selection
          let st :=
            if st.all_collections.isEmpty then
              st.set_status "No Iconify collections found." true
            else if ¬ st.is_loading_search then st.clear_status
            else st
          { a with iconify_search_popup_state := some st }
        | Except.error error =>
          { a with iconify_search_popup_state := some (st.set_status error true) }
  | AppEvent.iconifySearchLoaded request_id query result =>
    match a.iconify_search_popup_state with
    | none => a
    | some st =>
      if request_id ≠ st.latest_search_request_id then a
      else if query ≠ rustTrim st.search_value then a
      else if st.active_tab ≠ IconifySearchTab.icons ∨
          st.selected_collection_filter ≠ none then
        { a with
          iconify_search_popup_state := some
            ({ st with is_loading_search := false }) }
      else
        let st := { st with is_loading_search := false }
        match result with
        | Except.ok payload =>
          let st := { st with search_icons := payload.icons }
          let st := st.clamp_collection_selection
          let st := st.refresh_visible_icons
          let st :=
            if st.search_icons.isEmpty ∧ st.active_collections.isEmpty then
              st.set_status "No matching icons or collections." false
            else st.clear_status
          { a with iconify_search_popup_state := some st }
        | Except.error error =>
          let st := ({ st with search_icons := [] }).refresh_visible_icons
          { a with iconify_search_popup_state := some (st.set_status error true) }
  | AppEvent.iconifyCollectionIconsLoaded request_id pfx result =>
    match a.iconify_search_popup_state with
    | none => a
    | some st =>
      if request_id ≠ st.latest_collection_icons_request_id then a
      else
        let st := { st with is_loading_collection_icons := false }
        match result with
        | Except.ok icons =>
          let st := { st with collection_icons_pfx := some pfx,
                              collection_icons := icons }
          let st := st.refresh_visible_icons
          let st :=
            if st.collection_icons.isEmpty then
              st.set_status "No icons in this collection." false
            else if ¬ (rustTrim st.search_value).isEmpty ∧
                st.visible_icons.isEmpty then
              st.set_status "No matching icons in this collection." false
            else st.clear_status
          { a with iconify_search_popup_state := some st }
        | Except.error error =>
          let st := ({ st with collection_icons := [],
                               collection_icons_pfx := none
                     }).refresh_visible_icons
          { a with iconify_search_popup_state := some (st.set_status error true) }

/-- `split_once(':')` on the character list of an icon name. -/
def split_once_list (sep : Char) : List Char → Option (List Char × List Char)
  | [] => none
  | c :: cs =>
    if c = sep then some ([], cs)
    else (split_once_list sep cs).map fun p => (c :: p.1, p.2)

/-- `icones_collection_url` from `iconify_search_popup.rs`. -/
def icones_collection_url (icon_name : String) : Option String :=
  (split_once_list ':' icon_name.data).map fun p =>
    "https://icones.js.org/collection/" ++ String.mk p.1 ++ "?icon=" ++ icon_name

/-- Modelled from the spec: `init_add_popup_with_icon_source` (its defining
code is in a part of the repository outside the included sources; only its
call site appears here).  Per §6 it is the one-way downstream
`stage_icon_for_add(icon_name)` collaborator whose outcome this subsystem
never observes; it does not touch the popup state or the request counter. -/
def App.init_add_popup_with_icon_source (icon_name : String) (a : App) : App :=
  { a with staged_icon_source := some icon_name }

/-- `App::open_icon_browser_preview`; the outcome of the external
`open_url_in_browser` call (an OS interaction) is passed in as
`browser_result`. -/
def App.open_icon_browser_preview (browser_result : Except String Unit)
    (icon_name : String) (a : App) : App :=
  match icones_collection_url icon_name with
  | none =>
    match a.iconify_search_popup_state with
    | none => a
    | some st =>
      { a with
        iconify_search_popup_state := some
          (st.set_status
            ("Cannot open Icones page for invalid icon name '" ++ icon_name ++ "'.")
            true) }
  | some url =>
    let a :=
      match a.iconify_search_popup_state with
      | none => a
      | some st =>
        { a with
          iconify_search_popup_state := some
            (st.set_status "Opening icon in browser..." false) }
    match browser_result with
    | Except.ok _ =>
      match a.iconify_search_popup_state with
      | none => a
      | some st =>
        { a with
          iconify_search_popup_state := some
            (st.set_status ("Opened Icones page: " ++ url) false) }
    | Except.error error =>
      match a.iconify_search_popup_state with
      | none => a
      | some st =>
        { a with
          iconify_search_popup_state := some
            (st.set_status ("Failed to open browser: " ++ error) true) }

/-- The key events handled by `App::handlekeys_iconify_search_popup`.  Any
input other than the special keys goes to the text area (external crate);
`textInput` carries the joined text the text area holds afterwards. -/
inductive PopupKey where
  | esc
  | tab
  | up
  | down
  | enter
  | ctrlO
  | textInput (new_value : String)
deriving Repr, DecidableEq

/-- `App::handlekeys_iconify_search_popup`. -/
def App.handlekeys_iconify_search_popup (now : Nat)
    (browser_result : Except String Unit) (input : PopupKey) (a : App) : App :=
  match a.iconify_search_popup_state with
  | none => a
  | some st =>
    match input with
    | PopupKey.esc => a.close_iconify_search_popup
    | PopupKey.tab =>
      let st :=
        match st.active_tab with
        | IconifySearchTab.collections =>
          { st with active_tab := IconifySearchTab.icons }
        | IconifySearchTab.icons =>
          let st := { st with selected_collection_filter := none }
          let st := st.clear_search_input now
          let st := { st with active_tab := IconifySearchTab.collections,
                              is_loading_collection_icons := false }
          st.refresh_visible_icons
      { a with
        iconify_search_popup_state := some (st.sync_search_dispatch_state now) }
    | PopupKey.up =>
      let st :=
        match st.active_tab with
        | IconifySearchTab.collections => st.move_collection_selection (-1)
        | IconifySearchTab.icons => st.move_icon_selection (-1)
      { a with iconify_search_popup_state := some st }
    | PopupKey.down =>
      let st :=
        match st.active_tab with
        | IconifySearchTab.collections => st.move_collection_selection 1
        | IconifySearchTab.icons => st.move_icon_selection 1
      { a with iconify_search_popup_state := some st }
    | PopupKey.enter =>
      match st.active_tab with
      | IconifySearchTab.collections =>
        match st.selected_collection_pfx with
        | some pfx =>
          let a :=
            { a with
              iconify_search_popup_state := some (st.clear_search_input now) }
          a.open_collection_icons now pfx
        | none => a
      | IconifySearchTab.icons =>
        match st.selected_icon_name with
        | some icon_name =>
          (a.close_iconify_search_popup).init_add_popup_with_icon_source icon_name
        | none =>
          { a with
            iconify_search_popup_state :=
              some (st.set_status "No icon selected." true) }
    | PopupKey.ctrlO =>
      if st.active_tab = IconifySearchTab.icons then
        match st.selected_icon_name with
        | some icon_name => a.open_icon_browser_preview browser_result icon_name
        | none =>
          { a with
            iconify_search_popup_state :=
              some (st.set_status "No icon selected." true) }
      else a
    | PopupKey.textInput new_value =>
      { a with
        iconify_search_popup_state :=
          some (st.update_search_value now new_value) }

/-- The request id carried by a completion event. -/
def AppEvent.event_request_id : AppEvent → Nat
  | AppEvent.iconifyCollectionsLoaded request_id _ => request_id
  | AppEvent.iconifySearchLoaded request_id _ _ => request_id
  | AppEvent.iconifyCollectionIconsLoaded request_id _ _ => request_id

/-- The latest request id issued for the category of a completion event. -/
def AppEvent.latest_id_for (st : IconifySearchPopupState) : AppEvent → Nat
  | AppEvent.iconifyCollectionsLoaded _ _ => st.latest_collections_request_id
  | AppEvent.iconifySearchLoaded _ _ _ => st.latest_search_request_id
  | AppEvent.iconifyCollectionIconsLoaded _ _ _ => st.latest_collection_icons_request_id

/-- Claim C1: a completion event whose request id differs from the latest id
issued for its category never alters any popup state: `handle_app_event`
returns the application unchanged.  In particular, if a completion for
request id N arrives after a completion for id N+1 of the same category has
been applied (so the latest issued id for the category is at least N+1 and
thus differs from N), handling the N completion is a no-op. -/
theorem stale_completion_leaves_app_unchanged (a : App)
    (st : IconifySearchPopupState) (e : AppEvent)
    (hpop : a.iconify_search_popup_state = some st)
    (hstale : e.event_request_id ≠ e.latest_id_for st) :
    a.handle_app_event e = a := by
  cases e with
  | iconifyCollectionsLoaded request_id result =>
    simp only [AppEvent.event_request_id, AppEvent.latest_id_for] at hstale
    simp only [App.handle_app_event, hpop]
    rw [if_pos hstale]
  | iconifySearchLoaded request_id query result =>
    simp only [AppEvent.event_request_id, AppEvent.latest_id_for] at hstale
    simp only [App.handle_app_event, hpop]
    rw [if_pos hstale]
  | iconifyCollectionIconsLoaded request_id pfx result =>
    simp only [AppEvent.event_request_id, AppEvent.latest_id_for] at hstale
    simp only [App.handle_app_event, hpop]
    rw [if_pos hstale]

/-- An application with a freshly opened popup, used to instantiate claims. -/
def witnessApp : App :=
  { App.initial with
      app_focus := AppFocus.iconifySearchPopup,
      iconify_search_popup_state := some IconifySearchPopupState.new }

/-- Witness for C1: a completion carrying id 7 while the latest collections
id is 0 leaves the application unchanged. -/
theorem stale_completion_leaves_app_unchanged_witness :
    witnessApp.handle_app_event
        (AppEvent.iconifyCollectionsLoaded 7 (Except.ok [])) = witnessApp :=
  stale_completion_leaves_app_unchanged witnessApp IconifySearchPopupState.new
    (AppEvent.iconifyCollectionsLoaded 7 (Except.ok [])) rfl (by decide)

/-- Claim C9: a `SearchLoaded` completion whose carried query differs from
the current trimmed query text changes no state at all, whatever its request
id and result. -/
theorem search_completion_requires_current_query (a : App)
    (st : IconifySearchPopupState) (request_id : Nat) (query : String)
    (result : Except String IconifySearchPayload)
    (hpop : a.iconify_search_popup_state = some st)
    (hq : query ≠ rustTrim st.search_value) :
    a.handle_app_event (AppEvent.iconifySearchLoaded request_id query result) = a := by
  simp only [App.handle_app_event, hpop]
  by_cases hrid : request_id ≠ st.latest_search_request_id
  · rw [if_pos hrid]
  · rw [if_neg hrid, if_pos hq]

/-- Witness for C9: with current query text empty, a completion carrying
query "bn" (whatever its id) is dropped without any state change. -/
theorem search_completion_requires_current_query_witness :
    witnessApp.handle_app_event
        (AppEvent.iconifySearchLoaded 0 "bn" (Except.ok (IconifySearchPayload.mk ["lucide:bean"]))) =
      witnessApp :=
  search_completion_requires_current_query witnessApp IconifySearchPopupState.new
    0 "bn" (Except.ok (IconifySearchPayload.mk ["lucide:bean"])) rfl (by decide)

/-- On a list length and index below `2 ^ 31`, with the `i32` addition in
range, the source's exact `i32` index computation agrees with the
idealized unbounded-integer formula. -/
theorem move_index_i32_eq_idealized (index : Nat) (delta : Int) (len : Nat)
    (hlen : len ≠ 0) (hlen31 : len < 2 ^ 31) (hi : index < 2 ^ 31)
    (hlo : -(2 ^ 31) ≤ (index : Int) + delta)
    (hhi : (index : Int) + delta < 2 ^ 31) :
    move_index_i32 index delta len =
      some ((((index : Int) + delta) % (len : Int)).toNat) := by
  unfold move_index_i32 i32_rem_euclid i32_wrapping_add usize_as_i32
  have h1 : index % 2 ^ 32 = index := Nat.mod_eq_of_lt (by omega)
  have h2 : len % 2 ^ 32 = len := Nat.mod_eq_of_lt (by omega)
  rw [h1, h2, if_pos hi, if_pos hlen31]
  have hwrap : ((index : Int) + delta + 2 ^ 31) % 2 ^ 32 =
      (index : Int) + delta + 2 ^ 31 :=
    Int.emod_eq_of_lt (by omega) (by omega)
  rw [hwrap]
  have hlen0 : ((len : Nat) : Int) ≠ 0 := by exact_mod_cast hlen
  have hlennn : (0 : Int) ≤ ((len : Nat) : Int) := Int.natCast_nonneg len
  rw [if_neg ?_]
  · rw [abs_of_nonneg hlennn]
    have : (index : Int) + delta + 2 ^ 31 - 2 ^ 31 = (index : Int) + delta := by
      ring
    rw [this]
    rfl
  · rintro (h0 | ⟨hx, hneg⟩)
    · exact hlen0 h0
    · omega

/-- A popup state whose visible icon list has length `3 * 2 ^ 31` (so
`len as i32` truncates to `i32::MIN`) with the selection at `2 ^ 31`. -/
def hugeIconListSt : IconifySearchPopupState :=
  { IconifySearchPopupState.new with
      visible_icons := List.replicate (3 * 2 ^ 31) "lucide:bean",
      selected_icon_index := 2 ^ 31 }

/-- Counterexample to C10 as stated: on a non-empty visible list of length
n = 3 * 2 ^ 31 with the selection at i = 2 ^ 31, pressing Down (delta = 1)
makes the source's i32 casts compute index 1 — `index as i32` truncates to
`i32::MIN` and `len as i32` to `i32::MIN`, so `rem_euclid` reduces modulo
2 ^ 31 — whereas the claim's formula `(i + delta) mod n` gives
2 ^ 31 + 1.  (At n = 2 ^ 32 the computation even panics: `len as i32` is
0 and `rem_euclid(0)` aborts.) -/
theorem move_selection_wraps_counterexample :
    hugeIconListSt.visible_icons.length = 3 * 2 ^ 31 ∧
    move_index_i32 hugeIconListSt.selected_icon_index 1
        hugeIconListSt.visible_icons.length = some 1 ∧
    ((hugeIconListSt.selected_icon_index : Int) + 1) %
        ((3 * 2 ^ 31 : Nat) : Int) = 2 ^ 31 + 1 ∧
    (1 : Int) ≠ 2 ^ 31 + 1 := by
  have hlen : hugeIconListSt.visible_icons.length = 3 * 2 ^ 31 := by
    show (List.replicate (3 * 2 ^ 31) "lucide:bean").length = 3 * 2 ^ 31
    rw [List.length_replicate]
  refine ⟨hlen, ?_, ?_, by norm_num⟩
  · rw [hlen]
    show move_index_i32 (2 ^ 31) 1 (3 * 2 ^ 31) = some 1
    decide
  · show (((2 ^ 31 : Nat) : Int) + 1) % ((3 * 2 ^ 31 : Nat) : Int) = 2 ^ 31 + 1
    decide

/-- Claim C10, amended: Up/Down movement wraps cyclically — on a non-empty
visible list whose length n and current index i are below `2 ^ 31`, with
the `i32` index addition staying in range (always the case in this UI,
where delta is ±1 and the indices are clamped below the list length), the
new index is `(i + delta) mod n`, computed identically by the source's
exact `i32` arithmetic (`move_index_i32`) and by the state-machine model;
on an empty list the selection index is set to 0.  For lists of length
at or above `2 ^ 31` the source's truncating `i32` casts diverge from the
mod-n formula (see the counterexample), so the bound is required. -/
theorem move_selection_wraps_amended (st : IconifySearchPopupState)
    (delta : Int) :
    (st.visible_icons.length ≠ 0 → st.visible_icons.length < 2 ^ 31 →
      st.selected_icon_index < 2 ^ 31 →
      -(2 ^ 31) ≤ (st.selected_icon_index : Int) + delta →
      (st.selected_icon_index : Int) + delta < 2 ^ 31 →
      move_index_i32 st.selected_icon_index delta st.visible_icons.length =
          some (st.move_icon_selection delta).selected_icon_index ∧
        ((st.move_icon_selection delta).selected_icon_index : Int) =
          ((st.selected_icon_index : Int) + delta) %
            (st.visible_icons.length : Int))
    ∧ (st.visible_icons.length = 0 →
        (st.move_icon_selection delta).selected_icon_index = 0)
    ∧ (st.active_collections.length ≠ 0 →
        st.active_collections.length < 2 ^ 31 →
        st.selected_collection_index < 2 ^ 31 →
        -(2 ^ 31) ≤ (st.selected_collection_index : Int) + delta →
        (st.selected_collection_index : Int) + delta < 2 ^ 31 →
        move_index_i32 st.selected_collection_index delta
            st.active_collections.length =
          some (st.move_collection_selection delta).selected_collection_index ∧
        ((st.move_collection_selection delta).selected_collection_index : Int) =
          ((st.selected_collection_index : Int) + delta) %
            (st.active_collections.length : Int))
    ∧ (st.active_collections.length = 0 →
        (st.move_collection_selection delta).selected_collection_index = 0) := by
  refine ⟨fun hn h31 hi hlo hhi => ?_, fun hn => ?_,
    fun hn h31 hi hlo hhi => ?_, fun hn => ?_⟩
  · have hidx : (((st.move_icon_selection delta).selected_icon_index : Nat) : Int) =
        ((st.selected_icon_index : Int) + delta) %
          (st.visible_icons.length : Int) := by
      simp only [IconifySearchPopupState.move_icon_selection, if_neg hn]
      exact Int.toNat_of_nonneg
        (Int.emod_nonneg _ (by exact_mod_cast hn))
    refine ⟨?_, hidx⟩
    rw [move_index_i32_eq_idealized _ _ _ hn h31 hi hlo hhi]
    simp only [IconifySearchPopupState.move_icon_selection, if_neg hn]
  · simp only [IconifySearchPopupState.move_icon_selection, if_pos hn]
  · have hidx : (((st.move_collection_selection delta).selected_collection_index : Nat) : Int) =
        ((st.selected_collection_index : Int) + delta) %
          (st.active_collections.length : Int) := by
      simp only [IconifySearchPopupState.move_collection_selection, if_neg hn]
      exact Int.toNat_of_nonneg
        (Int.emod_nonneg _ (by exact_mod_cast hn))
    refine ⟨?_, hidx⟩
    rw [move_index_i32_eq_idealized _ _ _ hn h31 hi hlo hhi]
    simp only [IconifySearchPopupState.move_collection_selection, if_neg hn]
  · simp only [IconifySearchPopupState.move_collection_selection, if_pos hn]

/-- A popup state with three visible icons, the last selected. -/
def moveWitnessSt : IconifySearchPopupState :=
  { IconifySearchPopupState.new with
      visible_icons := ["lucide:bean", "lucide:beaker", "lucide:home"],
      selected_icon_index := 2 }

/-- Witness for the amended C10: moving down from the last of three icons
selects index (2 + 1) mod 3, with the exact i32 computation agreeing. -/
theorem move_selection_wraps_amended_witness :
    move_index_i32 moveWitnessSt.selected_icon_index 1
        moveWitnessSt.visible_icons.length =
      some (moveWitnessSt.move_icon_selection 1).selected_icon_index ∧
    ((moveWitnessSt.move_icon_selection 1).selected_icon_index : Int) =
      ((moveWitnessSt.selected_icon_index : Int) + 1) %
        (moveWitnessSt.visible_icons.length : Int) :=
  (move_selection_wraps_amended moveWitnessSt 1).1 (by decide) (by decide)
    (by decide) (by decide) (by decide)

/-- Iterating `App::next_request_id` k times from a given application. -/
def App.app_after_calls (a : App) : Nat → App
  | 0 => a
  | k + 1 => ((App.app_after_calls a k).next_request_id).2

/-- The value returned by the k-th call to `next_request_id` in a session
started from `App.initial` (the returned value equals the counter after the
call). -/
def request_id_returned (k : Nat) : Nat :=
  (App.initial.app_after_calls k).next_async_request_id

/-- Closed form of the request counter: after k calls it is
`min k (2 ^ 64 - 1)` (the `u64` saturates). -/
theorem request_id_returned_eq (k : Nat) :
    request_id_returned k = min k (2 ^ 64 - 1) := by
  induction k with
  | zero =>
    simp [request_id_returned, App.app_after_calls, App.initial]
  | succ k ih =>
    unfold request_id_returned App.app_after_calls
    simp only [App.next_request_id, u64_saturating_add_one]
    unfold request_id_returned at ih
    rw [ih]
    have h64 : (2 : Nat) ^ 64 - 1 = 18446744073709551615 := by norm_num
    rw [h64] at *
    omega

/-- Counterexample to C3 as stated: because `next_request_id` uses
`saturating_add`, the value returned by call number 2^64 equals the value
already returned by call number 2^64 - 1, so ids are reused once the `u64`
counter saturates; "strictly greater than every value previously returned,
with no reuse, for the life of the application" fails. -/
theorem request_id_reuse_at_saturation :
    request_id_returned (2 ^ 64) = request_id_returned (2 ^ 64 - 1) ∧
      request_id_returned (2 ^ 64) = 2 ^ 64 - 1 := by
  rw [request_id_returned_eq, request_id_returned_eq]
  norm_num

/-- Claim C3, amended: each call to `next_request_id` returns a value
strictly greater than every previously returned value as long as fewer than
2^64 calls have been made (before the `u64` counter saturates at
`2 ^ 64 - 1`, after which every call returns `2 ^ 64 - 1` again); the
counter lives on `App`, is not touched by closing the popup, and re-opening
the popup only advances it (via the collections fetch), never resets it. -/
theorem request_ids_strictly_increasing_below_saturation :
    (∀ j k : Nat, j < k → k < 2 ^ 64 →
      request_id_returned j < request_id_returned k)
    ∧ (∀ a : App,
        (a.close_iconify_search_popup).next_async_request_id =
          a.next_async_request_id)
    ∧ (∀ a : App,
        (a.init_iconify_search_popup).next_async_request_id =
          u64_saturating_add_one a.next_async_request_id) := by
  refine ⟨fun j k hjk hk => ?_, fun a => rfl, fun a => rfl⟩
  rw [request_id_returned_eq, request_id_returned_eq]
  have h64 : (2 : Nat) ^ 64 = 18446744073709551616 := by norm_num
  rw [h64] at hk
  omega

/-- Witness for the amended C3: the second call returns more than the
first, and closing/initializing behaves as stated on a concrete
application. -/
theorem request_ids_strictly_increasing_below_saturation_witness :
    request_id_returned 1 < request_id_returned 2 ∧
      (witnessApp.close_iconify_search_popup).next_async_request_id =
        witnessApp.next_async_request_id :=
  ⟨request_ids_strictly_increasing_below_saturation.1 1 2 (by norm_num)
      (by norm_num),
    request_ids_strictly_increasing_below_saturation.2.1 witnessApp⟩

/-- Reading every position of a list in order reproduces the list. -/
theorem map_getD_range {α : Type} (l : List α) (d : α) :
    (List.range l.length).map (fun i => l.getD i d) = l := by
  induction l with
  | nil => simp
  | cons x xs ih =>
    rw [List.length_cons, List.range_succ_eq_map, List.map_cons, List.map_map]
    have h1 : (x :: xs).getD 0 d = x := rfl
    have h2 : ((fun i => (x :: xs).getD i d) ∘ Nat.succ) = fun i => xs.getD i d := rfl
    rw [h1, h2, ih]

/-- Claim C5: with an empty or whitespace-only query, the fuzzy ranker is
the identity: `fuzzy_rank_indices` returns every candidate's index in
original order, and both filter functions return their candidate list
unchanged. -/
theorem rank_empty_query_identity (query : String)
    (candidates : List FuzzyCandidate) (icons : List String)
    (collections : List IconifyCollectionListItem)
    (h : (rustTrim query).isEmpty = true) :
    fuzzy_rank_indices query candidates = candidates.map FuzzyCandidate.index
    ∧ fuzzy_filter_icons icons query = icons
    ∧ fuzzy_filter_collections collections query = collections := by
  have hrank : ∀ cs : List FuzzyCandidate,
      fuzzy_rank_indices query cs = cs.map FuzzyCandidate.index := by
    intro cs
    unfold fuzzy_rank_indices
    rw [if_pos h]
  refine ⟨hrank candidates, ?_, ?_⟩
  · have hcand :
        ((icons.enum.map fun p => FuzzyCandidate.mk p.1 p.2).map
          FuzzyCandidate.index) = List.range icons.length := by
      rw [List.map_map]
      exact List.enum_map_fst icons
    simp only [fuzzy_filter_icons]
    rw [hrank, hcand, map_getD_range]
  · have hcand :
        ((collections.enum.map fun p =>
            FuzzyCandidate.mk p.1 (p.2.pfx ++ " " ++ p.2.name)).map
          FuzzyCandidate.index) = List.range collections.length := by
      rw [List.map_map]
      exact List.enum_map_fst collections
    simp only [fuzzy_filter_collections]
    rw [hrank, hcand, map_getD_range]

/-- Witness for C5: a whitespace-only query leaves a concrete icon list
untouched. -/
theorem rank_empty_query_identity_witness :
    fuzzy_filter_icons ["lucide:bean", "lucide:beaker"] "  " =
      ["lucide:bean", "lucide:beaker"] :=
  (rank_empty_query_identity "  " [] ["lucide:bean", "lucide:beaker"] []
    (by decide)).2.1

/-- The candidates underlying `fuzzy_matched` are exactly the candidates
whose score is a match, in original order. -/
theorem fuzzy_matched_map_fst (query : String) (cs : List FuzzyCandidate) :
    (fuzzy_matched query cs).map Prod.fst =
      cs.filter fun c => (fuzzy_score query c.haystack).isSome := by
  induction cs with
  | nil => rfl
  | cons c cs ih =>
    unfold fuzzy_matched at ih ⊢
    rw [List.filterMap_cons, List.filter_cons]
    cases hs : fuzzy_score query c.haystack with
    | none => simpa [hs] using ih
    | some s => simpa [hs] using ih

/-- Claim C6: for a non-empty query the ranker returns the indices of the
sorted matched list: the matched list is sorted by `rank_rel` (descending
score, ties by ascending original index; being a Lean function the result
is deterministic for identical inputs), its candidates are a permutation of
exactly those input candidates that match (unmatched candidates are
excluded entirely), and in particular
`rank "bn" ["lucide:bean", "lucide:beaker", "lucide:home"]` keeps exactly
`"lucide:bean"`. -/
theorem rank_nonempty_query_sorted (query : String)
    (candidates : List FuzzyCandidate)
    (h : (rustTrim query).isEmpty = false) :
    fuzzy_rank_indices query candidates =
        (fuzzy_rank_pairs query candidates).map (fun p => p.1.index)
    ∧ List.Sorted rank_rel (fuzzy_rank_pairs query candidates)
    ∧ ((fuzzy_rank_pairs query candidates).map Prod.fst).Perm
        (candidates.filter fun c => (fuzzy_score query c.haystack).isSome)
    ∧ fuzzy_filter_icons ["lucide:bean", "lucide:beaker", "lucide:home"] "bn" =
        ["lucide:bean"] := by
  refine ⟨?_, ?_, ?_, ?_⟩
  · unfold fuzzy_rank_indices
    rw [if_neg (by rw [h]; exact Bool.false_ne_true)]
  · exact List.sorted_insertionSort rank_rel _
  · have h1 : (fuzzy_rank_pairs query candidates).Perm
        (fuzzy_matched query candidates) :=
      List.perm_insertionSort rank_rel _
    have h2 := h1.map Prod.fst
    rw [fuzzy_matched_map_fst] at h2
    exact h2
  · decide

/-- Witness for C6: instantiated at the query "bn", whose trimmed text is
non-empty; the concrete ranking example from the claim. -/
theorem rank_nonempty_query_sorted_witness :
    fuzzy_filter_icons ["lucide:bean", "lucide:beaker", "lucide:home"] "bn" =
      ["lucide:bean"] :=
  (rank_nonempty_query_sorted "bn" [] (by decide)).2.2.2

/-- A selection index is in range, or pinned to 0 on an empty list. -/
def idx_ok (i len : Nat) : Prop :=
  i < len ∨ (len = 0 ∧ i = 0)

theorem idx_ok_zero (len : Nat) : idx_ok 0 len := by
  rcases Nat.eq_zero_or_pos len with h | h
  · exact Or.inr ⟨h, rfl⟩
  · exact Or.inl h

theorem idx_ok_mono {i m n : Nat} (h : idx_ok i m) (hmn : m ≤ n) : idx_ok i n := by
  rcases h with h | ⟨h1, h2⟩
  · exact Or.inl (Nat.lt_of_lt_of_le h hmn)
  · subst h2; exact idx_ok_zero n

theorem clamp_icon_selection_eq (st : IconifySearchPopupState) :
    ∃ i, st.clamp_icon_selection = { st with selected_icon_index := i } ∧
      idx_ok i st.visible_icons.length := by
  simp only [IconifySearchPopupState.clamp_icon_selection]
  split_ifs with h1 h2
  · exact ⟨0, rfl, Or.inr ⟨h1, rfl⟩⟩
  · exact ⟨st.visible_icons.length - 1, rfl, Or.inl (by omega)⟩
  · exact ⟨st.selected_icon_index, rfl, Or.inl (by omega)⟩

theorem clamp_collection_selection_eq (st : IconifySearchPopupState) :
    ∃ i, st.clamp_collection_selection = { st with selected_collection_index := i } ∧
      idx_ok i st.active_collections.length := by
  simp only [IconifySearchPopupState.clamp_collection_selection]
  split_ifs with h1 h2
  · exact ⟨0, rfl, Or.inr ⟨h1, rfl⟩⟩
  · exact ⟨st.active_collections.length - 1, rfl, Or.inl (by omega)⟩
  · exact ⟨st.selected_collection_index, rfl, Or.inl (by omega)⟩

theorem refresh_visible_icons_eq (st : IconifySearchPopupState) :
    ∃ v i, st.refresh_visible_icons =
        { st with visible_icons := v, selected_icon_index := i } ∧
      idx_ok i v.length := by
  simp only [IconifySearchPopupState.refresh_visible_icons]
  split
  · split_ifs with hne hq
    · obtain ⟨i, hi, hok⟩ :=
        clamp_icon_selection_eq { st with visible_icons := [] }
      exact ⟨[], i, hi, hok⟩
    · obtain ⟨i, hi, hok⟩ :=
        clamp_icon_selection_eq { st with visible_icons := st.collection_icons }
      exact ⟨st.collection_icons, i, hi, hok⟩
    · obtain ⟨i, hi, hok⟩ := clamp_icon_selection_eq
        { st with visible_icons :=
            fuzzy_filter_icons st.collection_icons (rustTrim st.search_value) }
      exact ⟨fuzzy_filter_icons st.collection_icons (rustTrim st.search_value),
        i, hi, hok⟩
  · obtain ⟨i, hi, hok⟩ :=
      clamp_icon_selection_eq { st with visible_icons := st.search_icons }
    exact ⟨st.search_icons, i, hi, hok⟩

theorem fuzzy_rank_indices_length_le (query : String)
    (cs : List FuzzyCandidate) :
    (fuzzy_rank_indices query cs).length ≤ cs.length := by
  unfold fuzzy_rank_indices
  split_ifs with h
  · rw [List.length_map]
  · rw [List.length_map, fuzzy_rank_pairs,
      (List.perm_insertionSort rank_rel _).length_eq]
    exact List.length_filterMap_le _ _

theorem fuzzy_filter_collections_length_le
    (collections : List IconifyCollectionListItem) (query : String) :
    (fuzzy_filter_collections collections query).length ≤ collections.length := by
  simp only [fuzzy_filter_collections]
  rw [List.length_map]
  calc (fuzzy_rank_indices query _).length
      ≤ (collections.enum.map fun p =>
          FuzzyCandidate.mk p.1 (p.2.pfx ++ " " ++ p.2.name)).length :=
        fuzzy_rank_indices_length_le _ _
    _ = collections.length := by rw [List.length_map, List.enum_length]

theorem refresh_filtered_collections_eq (st : IconifySearchPopupState) :
    ∃ fc : List IconifyCollectionListItem,
      st.refresh_filtered_collections = { st with filtered_collections := fc } ∧
      fc.length ≤ st.all_collections.length := by
  simp only [IconifySearchPopupState.refresh_filtered_collections]
  split_ifs with hq
  · exact ⟨[], rfl, by simp⟩
  · exact ⟨_, rfl, fuzzy_filter_collections_length_le _ _⟩

theorem sync_search_dispatch_state_eq (now : Nat)
    (st : IconifySearchPopupState) :
    ∃ p d b, st.sync_search_dispatch_state now =
      { st with pending_search_query := p, debounce_deadline := d,
                is_loading_search := b } := by
  simp only [IconifySearchPopupState.sync_search_dispatch_state]
  split_ifs with h
  · exact ⟨none, none, false, rfl⟩
  · exact ⟨some (rustTrim st.search_value), some (now + SEARCH_DEBOUNCE_MS),
      true, rfl⟩

theorem sync_search_dispatch_state_of_empty (now : Nat)
    (st : IconifySearchPopupState)
    (h : (rustTrim st.search_value).isEmpty = true) :
    st.sync_search_dispatch_state now =
      { st with pending_search_query := none, debounce_deadline := none,
                is_loading_search := false } := by
  simp only [IconifySearchPopupState.sync_search_dispatch_state]
  rw [if_pos (Or.inl h)]

theorem clear_search_input_eq (now : Nat) (st : IconifySearchPopupState) :
    st.clear_search_input now =
      { st with search_value := "", filtered_collections := [],
                search_icons := [], selected_icon_index := 0,
                pending_search_query := none, debounce_deadline := none,
                is_loading_search := false, status_message := none,
                status_is_error := false } := by
  have h := sync_search_dispatch_state_of_empty now
    { st with search_value := "", filtered_collections := [],
              search_icons := [], selected_icon_index := 0 } rfl
  simp only [IconifySearchPopupState.clear_search_input]
  rw [h]
  rfl

theorem refresh_filtered_collections_search_value (st : IconifySearchPopupState) :
    (st.refresh_filtered_collections).search_value = st.search_value := by
  obtain ⟨fc, heq, _⟩ := refresh_filtered_collections_eq st
  rw [heq]

theorem refresh_visible_icons_search_value (st : IconifySearchPopupState) :
    (st.refresh_visible_icons).search_value = st.search_value := by
  obtain ⟨v, i, heq, _⟩ := refresh_visible_icons_eq st
  rw [heq]

theorem sync_pending_none_of_empty (now : Nat) (st : IconifySearchPopupState)
    (h : (rustTrim st.search_value).isEmpty = true) :
    (st.sync_search_dispatch_state now).pending_search_query = none ∧
      (st.sync_search_dispatch_state now).debounce_deadline = none := by
  rw [sync_search_dispatch_state_of_empty now st h]
  exact ⟨rfl, rfl⟩

theorem update_search_value_of_empty (now : Nat) (new_value : String)
    (st : IconifySearchPopupState) (h : (rustTrim new_value).isEmpty = true) :
    (st.update_search_value now new_value).pending_search_query = none ∧
      (st.update_search_value now new_value).debounce_deadline = none := by
  simp only [IconifySearchPopupState.update_search_value]
  refine sync_pending_none_of_empty now _ ?_
  rw [refresh_visible_icons_search_value]
  split_ifs with hq
  · simp only [refresh_filtered_collections_search_value]
    exact h
  · simp only [refresh_filtered_collections_search_value]
    exact h

theorem tick_no_deadline (a : App) (now : Nat)
    (h : ∀ st, a.iconify_search_popup_state = some st →
      st.debounce_deadline = none) :
    a.tick_iconify_search_popup now = a := by
  cases hpop : a.iconify_search_popup_state with
  | none => simp [App.tick_iconify_search_popup, hpop]
  | some st =>
    have hd := h st hpop
    simp [App.tick_iconify_search_popup, hpop, hd]

/-- Claim C7: when the query text changes to an empty or whitespace-only
string, no pending search dispatch is produced: the resulting popup state
has `pending_search_query = none` and `debounce_deadline = none`, the key
handling spawns no fetch, and any later frame tick dispatches nothing (so no
free-text search request is ever sent for that query). -/
theorem empty_query_never_dispatches (a : App) (st : IconifySearchPopupState)
    (now : Nat) (browser_result : Except String Unit) (new_value : String)
    (hpop : a.iconify_search_popup_state = some st)
    (hempty : (rustTrim new_value).isEmpty = true) :
    (a.handlekeys_iconify_search_popup now browser_result
        (PopupKey.textInput new_value)).iconify_search_popup_state =
      some (st.update_search_value now new_value)
    ∧ (st.update_search_value now new_value).pending_search_query = none
    ∧ (st.update_search_value now new_value).debounce_deadline = none
    ∧ (a.handlekeys_iconify_search_popup now browser_result
        (PopupKey.textInput new_value)).dispatched = a.dispatched
    ∧ ∀ later : Nat,
        (a.handlekeys_iconify_search_popup now browser_result
            (PopupKey.textInput new_value)).tick_iconify_search_popup later =
          a.handlekeys_iconify_search_popup now browser_result
            (PopupKey.textInput new_value) := by
  have hkey : a.handlekeys_iconify_search_popup now browser_result
      (PopupKey.textInput new_value) =
      { a with
        iconify_search_popup_state :=
          some (st.update_search_value now new_value) } := by
    simp only [App.handlekeys_iconify_search_popup, hpop]
  obtain ⟨hp, hd⟩ := update_search_value_of_empty now new_value st hempty
  refine ⟨by rw [hkey], hp, hd, by rw [hkey], fun later => ?_⟩
  apply tick_no_deadline
  intro st' hst'
  rw [hkey] at hst'
  have : st.update_search_value now new_value = st' := by
    injection hst'
  rw [← this]
  exact hd

/-- Witness for C7: typing a single space into a fresh popup leaves no
pending dispatch. -/
theorem empty_query_never_dispatches_witness :
    (IconifySearchPopupState.new.update_search_value 0 " ").pending_search_query =
      none :=
  (empty_query_never_dispatches witnessApp IconifySearchPopupState.new 0
    (Except.ok ()) " " rfl (by decide)).2.1

theorem refresh_visible_icons_collection_icons_pfx (st : IconifySearchPopupState) :
    (st.refresh_visible_icons).collection_icons_pfx = st.collection_icons_pfx := by
  obtain ⟨v, i, heq, _⟩ := refresh_visible_icons_eq st
  rw [heq]

theorem refresh_visible_icons_collection_icons (st : IconifySearchPopupState) :
    (st.refresh_visible_icons).collection_icons = st.collection_icons := by
  obtain ⟨v, i, heq, _⟩ := refresh_visible_icons_eq st
  rw [heq]

theorem sync_search_dispatch_state_collection_icons_pfx (now : Nat)
    (st : IconifySearchPopupState) :
    (st.sync_search_dispatch_state now).collection_icons_pfx =
      st.collection_icons_pfx := by
  obtain ⟨p, d, b, heq⟩ := sync_search_dispatch_state_eq now st
  rw [heq]

theorem sync_search_dispatch_state_collection_icons (now : Nat)
    (st : IconifySearchPopupState) :
    (st.sync_search_dispatch_state now).collection_icons = st.collection_icons := by
  obtain ⟨p, d, b, heq⟩ := sync_search_dispatch_state_eq now st
  rw [heq]

theorem open_collection_icons_dispatch (now : Nat) (pfx : String) (a : App)
    (st : IconifySearchPopupState)
    (hpop : a.iconify_search_popup_state = some st) :
    (st.collection_icons_pfx ≠ some pfx →
      (a.open_collection_icons now pfx).dispatched =
        a.dispatched ++ [Dispatch.collectionIconsFetch
          (u64_saturating_add_one a.next_async_request_id) pfx])
    ∧ (st.collection_icons_pfx = some pfx →
      (a.open_collection_icons now pfx).dispatched = a.dispatched ∧
      ∃ st', (a.open_collection_icons now pfx).iconify_search_popup_state =
          some st' ∧
        st'.collection_icons = st.collection_icons ∧
        st'.collection_icons_pfx = some pfx) := by
  simp only [App.open_collection_icons, hpop,
    sync_search_dispatch_state_collection_icons_pfx,
    refresh_visible_icons_collection_icons_pfx]
  constructor
  · intro hne
    rw [if_pos hne, if_pos hne]
    rfl
  · intro hcached
    have hnotne : ¬ st.collection_icons_pfx ≠ some pfx := not_not_intro hcached
    rw [if_neg hnotne, if_neg hnotne]
    refine ⟨rfl, _, rfl, ?_, ?_⟩
    · rw [sync_search_dispatch_state_collection_icons,
        refresh_visible_icons_collection_icons]
    · rw [sync_search_dispatch_state_collection_icons_pfx,
        refresh_visible_icons_collection_icons_pfx]
      exact hcached

/-- Claim C8: pressing Enter on a selected collection whose namespace key is
not the one currently cached spawns exactly one collection-icon fetch
(appending exactly one dispatch to the log); pressing Enter on a collection
whose key is already the cached one spawns zero additional fetches and the
cached icon list is kept (reused). -/
theorem enter_collection_fetch_once (a : App) (st : IconifySearchPopupState)
    (now : Nat) (browser_result : Except String Unit) (pfx : String)
    (hpop : a.iconify_search_popup_state = some st)
    (htab : st.active_tab = IconifySearchTab.collections)
    (hsel : st.selected_collection_pfx = some pfx) :
    (st.collection_icons_pfx ≠ some pfx →
      (a.handlekeys_iconify_search_popup now browser_result
          PopupKey.enter).dispatched =
        a.dispatched ++ [Dispatch.collectionIconsFetch
          (u64_saturating_add_one a.next_async_request_id) pfx])
    ∧ (st.collection_icons_pfx = some pfx →
      (a.handlekeys_iconify_search_popup now browser_result
          PopupKey.enter).dispatched = a.dispatched ∧
      ∃ st', (a.handlekeys_iconify_search_popup now browser_result
          PopupKey.enter).iconify_search_popup_state = some st' ∧
        st'.collection_icons = st.collection_icons ∧
        st'.collection_icons_pfx = some pfx) := by
  have hkey : a.handlekeys_iconify_search_popup now browser_result
      PopupKey.enter =
      ({ a with
         iconify_search_popup_state := some (st.clear_search_input now)
       }).open_collection_icons now pfx := by
    simp only [App.handlekeys_iconify_search_popup, hpop, htab, hsel]
  have hpfx : (st.clear_search_input now).collection_icons_pfx =
      st.collection_icons_pfx := by
    rw [clear_search_input_eq]
  have hci : (st.clear_search_input now).collection_icons =
      st.collection_icons := by
    rw [clear_search_input_eq]
  have hmain := open_collection_icons_dispatch now pfx
    { a with iconify_search_popup_state := some (st.clear_search_input now) }
    (st.clear_search_input now) rfl
  constructor
  · intro hne
    rw [hkey]
    have h1 := hmain.1 (by rw [hpfx]; exact hne)
    rw [h1]
  · intro hcached
    obtain ⟨h1, st', h2, h3, h4⟩ := hmain.2 (by rw [hpfx]; exact hcached)
    rw [hkey]
    exact ⟨h1, st', h2, by rw [h3, hci], h4⟩

/-- A popup state showing one collection, used to instantiate C8. -/
def fetchWitnessSt : IconifySearchPopupState :=
  { IconifySearchPopupState.new with
      all_collections :=
        [IconifyCollectionListItem.mk "lucide" "Lucide Icons" (some 100)] }

/-- An application holding `fetchWitnessSt`. -/
def fetchWitnessApp : App :=
  { App.initial with iconify_search_popup_state := some fetchWitnessSt }

/-- Witness for C8: with no cached collection, Enter on the "lucide" row
spawns exactly one collection-icon fetch. -/
theorem enter_collection_fetch_once_witness :
    (fetchWitnessApp.handlekeys_iconify_search_popup 0 (Except.ok ())
        PopupKey.enter).dispatched =
      fetchWitnessApp.dispatched ++ [Dispatch.collectionIconsFetch
        (u64_saturating_add_one fetchWitnessApp.next_async_request_id)
        "lucide"] :=
  (enter_collection_fetch_once fetchWitnessApp fetchWitnessSt 0 (Except.ok ())
    "lucide" rfl rfl (by decide)).1 (by decide)

/-- Counterexample to C4 as stated: a successful but empty collections
completion whose request id matches the latest collections id (both 0 here)
produces a status with `status_is_error = true`, not the claimed
non-error "nothing found" status. -/
theorem empty_collections_success_marks_error :
    Option.map (fun s => (s.status_message, s.status_is_error))
        ((witnessApp.handle_app_event
          (AppEvent.iconifyCollectionsLoaded 0
            (Except.ok []))).iconify_search_popup_state) =
      some (some "No Iconify collections found.", true) := by
  decide

/-- Claim C4, amended: for matching request ids, an empty successful search
result sets the non-error status "No matching icons or collections." when
the visible collection list is also empty (otherwise the status is simply
cleared), and an empty successful collection-icon list sets the non-error
status "No icons in this collection."; however an empty successful
collections list is reported with `status_is_error = true` ("No Iconify
collections found."), and `Err` results set `status_is_error = true` with
the error text. -/
theorem empty_result_status_amended (a : App) (st : IconifySearchPopupState)
    (pfx : String) (hpop : a.iconify_search_popup_state = some st) :
    (Option.map (fun s => (s.status_message, s.status_is_error))
        ((a.handle_app_event (AppEvent.iconifyCollectionsLoaded
          st.latest_collections_request_id
          (Except.ok []))).iconify_search_popup_state) =
      some (some "No Iconify collections found.", true))
    ∧ (∀ msg, Option.map (fun s => (s.status_message, s.status_is_error))
        ((a.handle_app_event (AppEvent.iconifyCollectionsLoaded
          st.latest_collections_request_id
          (Except.error msg))).iconify_search_popup_state) =
      some (some msg, true))
    ∧ (st.active_tab = IconifySearchTab.icons →
        st.selected_collection_filter = none →
      (st.active_collections.isEmpty = true →
        Option.map (fun s => (s.status_message, s.status_is_error))
          ((a.handle_app_event (AppEvent.iconifySearchLoaded
            st.latest_search_request_id (rustTrim st.search_value)
            (Except.ok (IconifySearchPayload.mk [])))).iconify_search_popup_state) =
        some (some "No matching icons or collections.", false))
      ∧ (st.active_collections.isEmpty = false →
        Option.map (fun s => (s.status_message, s.status_is_error))
          ((a.handle_app_event (AppEvent.iconifySearchLoaded
            st.latest_search_request_id (rustTrim st.search_value)
            (Except.ok (IconifySearchPayload.mk [])))).iconify_search_popup_state) =
        some (none, false))
      ∧ (∀ msg, Option.map (fun s => (s.status_message, s.status_is_error))
          ((a.handle_app_event (AppEvent.iconifySearchLoaded
            st.latest_search_request_id (rustTrim st.search_value)
            (Except.error msg))).iconify_search_popup_state) =
        some (some msg, true)))
    ∧ (Option.map (fun s => (s.status_message, s.status_is_error))
        ((a.handle_app_event (AppEvent.iconifyCollectionIconsLoaded
          st.latest_collection_icons_request_id pfx
          (Except.ok []))).iconify_search_popup_state) =
      some (some "No icons in this collection.", false))
    ∧ (∀ msg, Option.map (fun s => (s.status_message, s.status_is_error))
        ((a.handle_app_event (AppEvent.iconifyCollectionIconsLoaded
          st.latest_collection_icons_request_id pfx
          (Except.error msg))).iconify_search_popup_state) =
      some (some msg, true)) := by
  refine ⟨?_, fun msg => ?_, fun htab hfil => ⟨fun hemp => ?_, fun hnemp => ?_,
    fun msg => ?_⟩, ?_, fun msg => ?_⟩
  · simp only [App.handle_app_event, hpop]
    rw [if_neg (not_not_intro rfl)]
    obtain ⟨fc, hfc, _⟩ := refresh_filtered_collections_eq
      { st with is_loading_collections := false, all_collections := [] }
    rw [hfc]
    obtain ⟨i, hcl, _⟩ := clamp_collection_selection_eq
      { st with is_loading_collections := false, all_collections := [],
                filtered_collections := fc }
    rw [hcl]
    rfl
  · simp only [App.handle_app_event, hpop]
    rw [if_neg (not_not_intro rfl)]
    rfl
  · simp only [App.handle_app_event, hpop]
    rw [if_neg (not_not_intro rfl), if_neg (not_not_intro rfl),
      if_neg (by simp [htab, hfil])]
    obtain ⟨i, hcl, _⟩ := clamp_collection_selection_eq
      { st with is_loading_search := false, search_icons := [] }
    rw [hcl]
    obtain ⟨v, ii, hrv, _⟩ := refresh_visible_icons_eq
      { st with is_loading_search := false, search_icons := [],
                selected_collection_index := i }
    rw [hrv]
    rw [if_pos ?_]
    · rfl
    · exact ⟨rfl, hemp⟩
  · simp only [App.handle_app_event, hpop]
    rw [if_neg (not_not_intro rfl), if_neg (not_not_intro rfl),
      if_neg (by simp [htab, hfil])]
    obtain ⟨i, hcl, _⟩ := clamp_collection_selection_eq
      { st with is_loading_search := false, search_icons := [] }
    rw [hcl]
    obtain ⟨v, ii, hrv, _⟩ := refresh_visible_icons_eq
      { st with is_loading_search := false, search_icons := [],
                selected_collection_index := i }
    rw [hrv]
    rw [if_neg ?_]
    · rfl
    · intro hc
      have h2 : st.active_collections.isEmpty = true := hc.2
      rw [hnemp] at h2
      exact Bool.noConfusion h2
  · simp only [App.handle_app_event, hpop]
    rw [if_neg (not_not_intro rfl), if_neg (not_not_intro rfl),
      if_neg (by simp [htab, hfil])]
    obtain ⟨v, ii, hrv, _⟩ := refresh_visible_icons_eq
      { st with is_loading_search := false, search_icons := [] }
    rw [hrv]
    rfl
  · simp only [App.handle_app_event, hpop]
    rw [if_neg (not_not_intro rfl)]
    obtain ⟨v, ii, hrv, _⟩ := refresh_visible_icons_eq
      { st with is_loading_collection_icons := false,
                collection_icons_pfx := some pfx, collection_icons := [] }
    rw [hrv]
    rfl
  · simp only [App.handle_app_event, hpop]
    rw [if_neg (not_not_intro rfl)]
    obtain ⟨v, ii, hrv, _⟩ := refresh_visible_icons_eq
      { st with is_loading_collection_icons := false, collection_icons := [],
                collection_icons_pfx := none }
    rw [hrv]
    rfl

/-- Witness for the amended C4: on a fresh popup, an empty successful
collection-icon completion yields the non-error "No icons in this
collection." status. -/
theorem empty_result_status_amended_witness :
    Option.map (fun s => (s.status_message, s.status_is_error))
        ((witnessApp.handle_app_event
          (AppEvent.iconifyCollectionIconsLoaded 0 "lucide"
            (Except.ok []))).iconify_search_popup_state) =
      some (some "No icons in this collection.", false) :=
  (empty_result_status_amended witnessApp IconifySearchPopupState.new "lucide"
    rfl).2.2.2.1

/-- The selection/cache invariant of a popup state: both selection indices
are in range (or pinned to 0 on an empty list), and the filtered collection
list is never longer than the full catalog. -/
def st_inv (st : IconifySearchPopupState) : Prop :=
  idx_ok st.selected_collection_index st.active_collections.length ∧
  idx_ok st.selected_icon_index st.visible_icons.length ∧
  st.filtered_collections.length ≤ st.all_collections.length

/-- The popup invariant lifted to the application. -/
def App.popup_inv (a : App) : Prop :=
  ∀ st, a.iconify_search_popup_state = some st → st_inv st

theorem popup_inv_of_single (a : App) (st : IconifySearchPopupState)
    (h : st_inv st) :
    App.popup_inv { a with iconify_search_popup_state := some st } := by
  intro s hs
  have hss : st = s := by injection hs
  rw [← hss]
  exact h

theorem popup_inv_of_popup_eq (b : App) (st : IconifySearchPopupState)
    (hp : b.iconify_search_popup_state = some st) (h : st_inv st) :
    App.popup_inv b := by
  intro s hs
  rw [hp] at hs
  have hss : st = s := Option.some.inj hs
  rw [← hss]
  exact h

theorem st_inv_refresh_visible_icons (st : IconifySearchPopupState)
    (h : st_inv st) : st_inv st.refresh_visible_icons := by
  obtain ⟨v, i, heq, hok⟩ := refresh_visible_icons_eq st
  rw [heq]
  exact ⟨h.1, hok, h.2.2⟩

theorem st_inv_clamp_collection (st : IconifySearchPopupState)
    (h : st_inv st) : st_inv st.clamp_collection_selection := by
  obtain ⟨i, heq, hok⟩ := clamp_collection_selection_eq st
  rw [heq]
  exact ⟨hok, h.2.1, h.2.2⟩

theorem st_inv_sync (now : Nat) (st : IconifySearchPopupState)
    (h : st_inv st) : st_inv (st.sync_search_dispatch_state now) := by
  obtain ⟨p, d, b, heq⟩ := sync_search_dispatch_state_eq now st
  rw [heq]
  exact ⟨h.1, h.2.1, h.2.2⟩

theorem st_inv_move_collection (delta : Int) (st : IconifySearchPopupState)
    (h : st_inv st) : st_inv (st.move_collection_selection delta) := by
  simp only [IconifySearchPopupState.move_collection_selection]
  split_ifs with h0
  · exact ⟨idx_ok_zero _, h.2.1, h.2.2⟩
  · refine ⟨Or.inl ?_, h.2.1, h.2.2⟩
    show (((st.selected_collection_index : Int) + delta) %
        (st.active_collections.length : Int)).toNat <
      st.active_collections.length
    have hlen : (0 : Int) < (st.active_collections.length : Int) := by
      exact_mod_cast Nat.pos_of_ne_zero h0
    have h1 := Int.emod_nonneg ((st.selected_collection_index : Int) + delta)
      (by omega : (st.active_collections.length : Int) ≠ 0)
    have h2 := Int.emod_lt_of_pos ((st.selected_collection_index : Int) + delta)
      hlen
    omega

theorem st_inv_move_icon (delta : Int) (st : IconifySearchPopupState)
    (h : st_inv st) : st_inv (st.move_icon_selection delta) := by
  simp only [IconifySearchPopupState.move_icon_selection]
  split_ifs with h0
  · exact ⟨h.1, idx_ok_zero _, h.2.2⟩
  · refine ⟨h.1, Or.inl ?_, h.2.2⟩
    show (((st.selected_icon_index : Int) + delta) %
        (st.visible_icons.length : Int)).toNat < st.visible_icons.length
    have hlen : (0 : Int) < (st.visible_icons.length : Int) := by
      exact_mod_cast Nat.pos_of_ne_zero h0
    have h1 := Int.emod_nonneg ((st.selected_icon_index : Int) + delta)
      (by omega : (st.visible_icons.length : Int) ≠ 0)
    have h2 := Int.emod_lt_of_pos ((st.selected_icon_index : Int) + delta) hlen
    omega

theorem active_collections_cases (st : IconifySearchPopupState) :
    st.active_collections = st.all_collections ∨
      st.active_collections = st.filtered_collections := by
  unfold IconifySearchPopupState.active_collections
  split_ifs
  · exact Or.inl rfl
  · exact Or.inr rfl

theorem idx_ok_active_all (st : IconifySearchPopupState) (h : st_inv st) :
    idx_ok st.selected_collection_index st.all_collections.length := by
  rcases active_collections_cases st with hc | hc
  · rw [← hc]
    exact h.1
  · refine idx_ok_mono ?_ h.2.2
    rw [← hc]
    exact h.1

theorem st_inv_clear_search_input (now : Nat) (st : IconifySearchPopupState)
    (h : st_inv st) : st_inv (st.clear_search_input now) := by
  rw [clear_search_input_eq]
  exact ⟨idx_ok_active_all st h, idx_ok_zero _, Nat.zero_le _⟩

theorem st_inv_update_search_value (now : Nat) (new_value : String)
    (st : IconifySearchPopupState) :
    st_inv (st.update_search_value now new_value) := by
  simp only [IconifySearchPopupState.update_search_value]
  obtain ⟨fc, hfc, hle⟩ := refresh_filtered_collections_eq
    { st with search_value := new_value, status_message := none,
              status_is_error := false, selected_collection_index := 0,
              selected_icon_index := 0 }
  rw [hfc]
  split_ifs with hq
  · obtain ⟨v, ii, hrv, hok⟩ := refresh_visible_icons_eq
      { st with search_value := new_value, status_message := none,
                status_is_error := false, selected_collection_index := 0,
                selected_icon_index := 0, filtered_collections := [],
                search_icons := [] }
    rw [hrv]
    obtain ⟨p, d, b, hsy⟩ := sync_search_dispatch_state_eq now
      { st with search_value := new_value, status_message := none,
                status_is_error := false, selected_collection_index := 0,
                selected_icon_index := ii, filtered_collections := [],
                search_icons := [], visible_icons := v }
    rw [hsy]
    exact ⟨idx_ok_zero _, hok, Nat.zero_le _⟩
  · obtain ⟨v, ii, hrv, hok⟩ := refresh_visible_icons_eq
      { st with search_value := new_value, status_message := none,
                status_is_error := false, selected_collection_index := 0,
                selected_icon_index := 0, filtered_collections := fc,
                search_icons := [] }
    rw [hrv]
    obtain ⟨p, d, b, hsy⟩ := sync_search_dispatch_state_eq now
      { st with search_value := new_value, status_message := none,
                status_is_error := false, selected_collection_index := 0,
                selected_icon_index := ii, filtered_collections := fc,
                search_icons := [], visible_icons := v }
    rw [hsy]
    exact ⟨idx_ok_zero _, hok, hle⟩

theorem popup_inv_handle_app_event (e : AppEvent) (a : App)
    (h : App.popup_inv a) : App.popup_inv (a.handle_app_event e) := by
  cases hpop : a.iconify_search_popup_state with
  | none => cases e <;> simp only [App.handle_app_event, hpop] <;> exact h
  | some st =>
    have hst := h st hpop
    cases e with
    | iconifyCollectionsLoaded rid result =>
      cases result with
      | ok items =>
        simp only [App.handle_app_event, hpop]
        by_cases hrid : rid ≠ st.latest_collections_request_id
        · rw [if_pos hrid]; exact h
        · rw [if_neg hrid]
          obtain ⟨fc, hfc, hle⟩ := refresh_filtered_collections_eq
            { st with is_loading_collections := false, all_collections := items }
          rw [hfc]
          obtain ⟨i, hcl, hok⟩ := clamp_collection_selection_eq
            { st with is_loading_collections := false, all_collections := items,
                      filtered_collections := fc }
          rw [hcl]
          apply popup_inv_of_single
          split_ifs <;> exact ⟨hok, hst.2.1, hle⟩
      | error msg =>
        simp only [App.handle_app_event, hpop]
        by_cases hrid : rid ≠ st.latest_collections_request_id
        · rw [if_pos hrid]; exact h
        · rw [if_neg hrid]
          apply popup_inv_of_single
          exact hst
    | iconifySearchLoaded rid q result =>
      cases result with
      | ok payload =>
        simp only [App.handle_app_event, hpop]
        by_cases hrid : rid ≠ st.latest_search_request_id
        · rw [if_pos hrid]; exact h
        · rw [if_neg hrid]
          by_cases hq : q ≠ rustTrim st.search_value
          · rw [if_pos hq]; exact h
          · rw [if_neg hq]
            by_cases hguard : st.active_tab ≠ IconifySearchTab.icons ∨
                st.selected_collection_filter ≠ none
            · rw [if_pos hguard]
              apply popup_inv_of_single
              exact hst
            · rw [if_neg hguard]
              obtain ⟨i, hcl, hok⟩ := clamp_collection_selection_eq
                { st with is_loading_search := false,
                          search_icons := payload.icons }
              rw [hcl]
              obtain ⟨v, ii, hrv, hok2⟩ := refresh_visible_icons_eq
                { st with is_loading_search := false,
                          search_icons := payload.icons,
                          selected_collection_index := i }
              rw [hrv]
              apply popup_inv_of_single
              split_ifs <;> exact ⟨hok, hok2, hst.2.2⟩
      | error msg =>
        simp only [App.handle_app_event, hpop]
        by_cases hrid : rid ≠ st.latest_search_request_id
        · rw [if_pos hrid]; exact h
        · rw [if_neg hrid]
          by_cases hq : q ≠ rustTrim st.search_value
          · rw [if_pos hq]; exact h
          · rw [if_neg hq]
            by_cases hguard : st.active_tab ≠ IconifySearchTab.icons ∨
                st.selected_collection_filter ≠ none
            · rw [if_pos hguard]
              apply popup_inv_of_single
              exact hst
            · rw [if_neg hguard]
              obtain ⟨v, ii, hrv, hok2⟩ := refresh_visible_icons_eq
                { st with is_loading_search := false, search_icons := [] }
              rw [hrv]
              apply popup_inv_of_single
              exact ⟨hst.1, hok2, hst.2.2⟩
    | iconifyCollectionIconsLoaded rid pfx result =>
      cases result with
      | ok icons =>
        simp only [App.handle_app_event, hpop]
        by_cases hrid : rid ≠ st.latest_collection_icons_request_id
        · rw [if_pos hrid]; exact h
        · rw [if_neg hrid]
          obtain ⟨v, ii, hrv, hok2⟩ := refresh_visible_icons_eq
            { st with is_loading_collection_icons := false,
                      collection_icons_pfx := some pfx,
                      collection_icons := icons }
          rw [hrv]
          apply popup_inv_of_single
          split_ifs <;> exact ⟨hst.1, hok2, hst.2.2⟩
      | error msg =>
        simp only [App.handle_app_event, hpop]
        by_cases hrid : rid ≠ st.latest_collection_icons_request_id
        · rw [if_pos hrid]; exact h
        · rw [if_neg hrid]
          obtain ⟨v, ii, hrv, hok2⟩ := refresh_visible_icons_eq
            { st with is_loading_collection_icons := false,
                      collection_icons := [], collection_icons_pfx := none }
          rw [hrv]
          apply popup_inv_of_single
          exact ⟨hst.1, hok2, hst.2.2⟩

theorem popup_inv_set_status_layer (a : App) (h : App.popup_inv a)
    (m : String) (b : Bool) :
    App.popup_inv
      (match a.iconify_search_popup_state with
       | none => a
       | some st =>
         { a with iconify_search_popup_state := some (st.set_status m b) }) := by
  cases hpop : a.iconify_search_popup_state with
  | none => simp only [hpop]; exact h
  | some st =>
    simp only [hpop]
    apply popup_inv_of_single
    exact h st hpop

theorem popup_inv_open_icon_browser (browser_result : Except String Unit)
    (icon_name : String) (a : App) (h : App.popup_inv a) :
    App.popup_inv (a.open_icon_browser_preview browser_result icon_name) := by
  unfold App.open_icon_browser_preview
  cases hurl : icones_collection_url icon_name with
  | none =>
    simp only [hurl]
    exact popup_inv_set_status_layer a h _ _
  | some url =>
    simp only [hurl]
    cases browser_result with
    | ok u =>
      exact popup_inv_set_status_layer _ (popup_inv_set_status_layer a h _ _) _ _
    | error msg =>
      exact popup_inv_set_status_layer _ (popup_inv_set_status_layer a h _ _) _ _

theorem popup_inv_open_collection_icons (now : Nat) (pfx : String) (a : App)
    (h : App.popup_inv a) : App.popup_inv (a.open_collection_icons now pfx) := by
  cases hpop : a.iconify_search_popup_state with
  | none => simp only [App.open_collection_icons, hpop, App.next_request_id]; exact h
  | some st =>
    have hst := h st hpop
    simp only [App.open_collection_icons, hpop, App.next_request_id]
    have h1 : st_inv
        { st with
          active_tab := IconifySearchTab.icons,
          selected_collection_filter := some pfx,
          selected_icon_index := 0 } :=
      ⟨hst.1, idx_ok_zero _, hst.2.2⟩
    have h2 := st_inv_sync now _ (st_inv_refresh_visible_icons _ h1)
    split_ifs with hsf
    · exact popup_inv_of_popup_eq _ _ rfl (st_inv_refresh_visible_icons _ h2)
    · exact popup_inv_of_popup_eq _ _ rfl h2

theorem popup_inv_dispatch_search (query : String) (a : App)
    (h : App.popup_inv a) : App.popup_inv (a.dispatch_iconify_search query) := by
  cases hpop : a.iconify_search_popup_state with
  | none =>
    simp only [App.dispatch_iconify_search, hpop, App.next_request_id]
    intro s hs
    exact Option.noConfusion hs
  | some st =>
    have hst := h st hpop
    simp only [App.dispatch_iconify_search, hpop, App.next_request_id]
    split_ifs with hg
    · exact popup_inv_of_popup_eq _ _ rfl hst
    · exact popup_inv_of_popup_eq _ _ rfl hst

theorem popup_inv_tick (now : Nat) (a : App) (h : App.popup_inv a) :
    App.popup_inv (a.tick_iconify_search_popup now) := by
  simp only [App.tick_iconify_search_popup]
  split
  · exact popup_inv_dispatch_search _ a h
  · exact h

theorem popup_inv_close (a : App) :
    App.popup_inv a.close_iconify_search_popup := by
  intro s hs
  exact Option.noConfusion hs

theorem popup_inv_handlekeys (now : Nat)
    (browser_result : Except String Unit) (input : PopupKey) (a : App)
    (h : App.popup_inv a) :
    App.popup_inv (a.handlekeys_iconify_search_popup now browser_result input) := by
  cases hpop : a.iconify_search_popup_state with
  | none => simp only [App.handlekeys_iconify_search_popup, hpop]; exact h
  | some st =>
    have hst := h st hpop
    cases input with
    | esc =>
      simp only [App.handlekeys_iconify_search_popup, hpop]
      exact popup_inv_close a
    | tab =>
      simp only [App.handlekeys_iconify_search_popup, hpop]
      split
      · obtain ⟨p, d, b, hsy⟩ := sync_search_dispatch_state_eq now
          { st with active_tab := IconifySearchTab.icons }
        rw [hsy]
        apply popup_inv_of_single
        exact ⟨hst.1, hst.2.1, hst.2.2⟩
      · apply popup_inv_of_single
        have h2 := st_inv_clear_search_input now
          { st with selected_collection_filter := none } hst
        exact st_inv_sync now _ (st_inv_refresh_visible_icons _ h2)
    | up =>
      simp only [App.handlekeys_iconify_search_popup, hpop]
      split
      · apply popup_inv_of_single; exact st_inv_move_collection _ _ hst
      · apply popup_inv_of_single; exact st_inv_move_icon _ _ hst
    | down =>
      simp only [App.handlekeys_iconify_search_popup, hpop]
      split
      · apply popup_inv_of_single; exact st_inv_move_collection _ _ hst
      · apply popup_inv_of_single; exact st_inv_move_icon _ _ hst
    | enter =>
      simp only [App.handlekeys_iconify_search_popup, hpop]
      split
      · split
        · apply popup_inv_open_collection_icons
          apply popup_inv_of_single
          exact st_inv_clear_search_input now _ hst
        · exact h
      · split
        · intro s hs; exact Option.noConfusion hs
        · apply popup_inv_of_single; exact hst
    | ctrlO =>
      simp only [App.handlekeys_iconify_search_popup, hpop]
      split_ifs with htab
      · split
        · exact popup_inv_open_icon_browser _ _ a h
        · apply popup_inv_of_single; exact hst
      · exact h
    | textInput new_value =>
      simp only [App.handlekeys_iconify_search_popup, hpop]
      apply popup_inv_of_single
      exact st_inv_update_search_value now new_value st

theorem popup_inv_init (a : App) : App.popup_inv a.init_iconify_search_popup := by
  unfold App.init_iconify_search_popup App.request_iconify_collections
  exact popup_inv_of_popup_eq _ _ rfl
    ⟨Or.inr ⟨rfl, rfl⟩, Or.inr ⟨rfl, rfl⟩, Nat.le_refl _⟩

/-- Claim C2: in any application satisfying the popup invariant, the
selected collection index is below the length of the currently visible
collection list and the selected icon index is below the length of the
visible icon list (each index being 0 when its list is empty); the
invariant holds when the popup is opened and is preserved by every key
handling step (including query-text changes), every completion handling
step, and every frame tick, so the indices stay clamped after every
operation that mutates a visible list. -/
theorem selection_indices_clamped (a : App) (h : App.popup_inv a) :
    (∀ st, a.iconify_search_popup_state = some st →
      idx_ok st.selected_collection_index st.active_collections.length ∧
      idx_ok st.selected_icon_index st.visible_icons.length)
    ∧ App.popup_inv a.init_iconify_search_popup
    ∧ (∀ (now : Nat) (browser_result : Except String Unit) (input : PopupKey),
        App.popup_inv
          (a.handlekeys_iconify_search_popup now browser_result input))
    ∧ (∀ e : AppEvent, App.popup_inv (a.handle_app_event e))
    ∧ (∀ now : Nat, App.popup_inv (a.tick_iconify_search_popup now)) :=
  ⟨fun st hst => ⟨(h st hst).1, (h st hst).2.1⟩,
   popup_inv_init a,
   fun now browser_result input =>
     popup_inv_handlekeys now browser_result input a h,
   fun e => popup_inv_handle_app_event e a h,
   fun now => popup_inv_tick now a h⟩

/-- Witness for C2: the initial application (no popup) trivially satisfies
the invariant, and opening the popup establishes it. -/
theorem selection_indices_clamped_witness :
    App.popup_inv App.initial.init_iconify_search_popup :=
  (selection_indices_clamped App.initial
    (fun _ hst => Option.noConfusion hst)).2.1
